import Mathlib

/-!
Verification of the android_emuroot structure-discovery and patching engine
(`android_emuroot.py`) against its natural-language specification.

The engine is shallowly embedded: target memory is a function `Nat → Nat`
(word-granularity reads/writes at unbounded Python integers), the GDB session
transport is represented by explicit response values, and each Python function
of the core is translated to a Lean definition of the same name.
-/

set_option autoImplicit false

namespace Emuroot

/-- Errors raised by the engine, one constructor per distinct raise site:
`UnsupportedVersion` for `NotImplementedError("... not supported yet")` in
`kernel_version`, `StructNotFound` for `Exception("Could not find process task
struct")` in `get_process_task_struct`, and `DebugChannelUnreliable` for
`Exception("GDB timeout reached. Quit")` in `read_mem`. -/
inductive EmurootError where
  | UnsupportedVersion
  | StructNotFound
  | DebugChannelUnreliable
  deriving DecidableEq

instance {ε α : Type} [DecidableEq ε] [DecidableEq α] : DecidableEq (Except ε α) :=
  fun x y =>
    match x, y with
    | Except.ok a, Except.ok b =>
        if h : a = b then isTrue (by rw [h]) else isFalse (by intro hc; cases hc; exact h rfl)
    | Except.error a, Except.error b =>
        if h : a = b then isTrue (by rw [h]) else isFalse (by intro hc; cases hc; exact h rfl)
    | Except.ok _, Except.error _ => isFalse (by intro hc; cases hc)
    | Except.error _, Except.ok _ => isFalse (by intro hc; cases hc)

/-- The per-kernel-version layout constants returned by `kernel_version`
(the tuple `(offset_to_comm, offset_to_parent, offset_selinux, ps_cmd)`;
the redundant `ver` component is dropped). -/
structure KernelProfile where
  offset_to_comm : Nat
  offset_to_parent : Nat
  offset_selinux : List Nat
  ps_cmd : String
  deriving DecidableEq

/-- Numeric value of a list of decimal digits, as Python `int` of the digit
string (most significant first). -/
def digitsToNat (ds : List Nat) : Nat :=
  ds.foldl (fun a d => 10 * a + d) 0

/-- Value of Python `float(str(major) + "." + minorDigits)`: the decimal value
of the version string, as an exact rational.  For the short decimal fractions
that occur as kernel versions, IEEE-754 rounding is strictly monotone and
injective, so every comparison the source makes against the literals `3.10`
and `3.18` coincides with the exact rational comparison. -/
def floatOfVersion (major : Nat) (minorDigits : List Nat) : ℚ :=
  (major : ℚ) + (digitsToNat minorDigits : ℚ) / 10 ^ minorDigits.length

/-- Translation of `kernel_version()` (lines 13–49): the reported version
string is split at the dots, `float(major + "." + minor)` is computed, and the
two brackets `ver <= 3.10` and `3.10 < ver <= 3.18` select the two hardcoded
profiles; anything else raises `NotImplementedError`.  The input is the
`major` component and the decimal digits of the `minor` component. -/
def kernel_version (major : Nat) (minorDigits : List Nat) :
    Except EmurootError KernelProfile :=
  let ver : ℚ := floatOfVersion major minorDigits
  if ver ≤ 3.10 then
    Except.ok { offset_to_comm := 0x288, offset_to_parent := 0xe0,
                offset_selinux := [0xC0A77548, 0xC0A7754C, 0xC0A77550],
                ps_cmd := "ps" }
  else if 3.10 < ver ∧ ver ≤ 3.18 then
    Except.ok { offset_to_comm := 0x444, offset_to_parent := 0xe0,
                offset_selinux := [0xC0C4F288, 0xC0C4F28C, 0xC0C4F280],
                ps_cmd := "ps -A" }
  else
    Except.error EmurootError.UnsupportedVersion

/-- Modelled from the spec: the profile the spec assigns to the `v <= 3.10`
bracket. -/
def spec_profile_A : KernelProfile :=
  { offset_to_comm := 0x288, offset_to_parent := 0xe0,
    offset_selinux := [0xC0A77548, 0xC0A7754C, 0xC0A77550], ps_cmd := "ps" }

/-- Modelled from the spec: the profile the spec assigns to the
`3.10 < v <= 3.18` bracket. -/
def spec_profile_B : KernelProfile :=
  { offset_to_comm := 0x444, offset_to_parent := 0xe0,
    offset_selinux := [0xC0C4F288, 0xC0C4F28C, 0xC0C4F280], ps_cmd := "ps -A" }

/-- Modelled from the spec: ordering of two-part `major.minor` versions, under
which kernel version `3.4` precedes `3.10` (component-wise lexicographic
comparison, the ordering used by the spec when it brackets versions). -/
def spec_version_le (a b : Nat × Nat) : Bool :=
  a.1 < b.1 || (a.1 == b.1 && a.2 ≤ b.2)

/-- Translation of `GDB_stub_controller.write_mem` (lines 120–122): target
memory is a word-addressed map `Nat → Nat`; a write updates one address. -/
def write_mem (mem : Nat → Nat) (addr val : Nat) : Nat → Nat :=
  fun a => if a = addr then val else mem a

/-- Translation of `GDB_stub_controller.set_full_capabilities` (lines 183–188):
`for ofs in [0x30, 0x34, 0x38, 0x3c, 0x40, 0x44]: write_mem(cred_addr + ofs,
0xffffffff)`. -/
def set_full_capabilities (mem : Nat → Nat) (cred_addr : Nat) : Nat → Nat :=
  [0x30, 0x34, 0x38, 0x3c, 0x40, 0x44].foldl
    (fun m ofs => write_mem m (cred_addr + ofs) 0xffffffff) mem

/-- Translation of `GDB_stub_controller.set_root_ids` (lines 190–201):
`for ofs in [0x04, 0x08, 0x0c, 0x10, 0x1c, 0x20]: write_mem(cred_addr + ofs,
0)`, then if `effective` (Python default `True`) also zero `cred_addr + 0x14`
(euid) and `cred_addr + 0x18` (egid). -/
def set_root_ids (mem : Nat → Nat) (cred_addr : Nat) (effective : Bool) :
    Nat → Nat :=
  let m := [0x04, 0x08, 0x0c, 0x10, 0x1c, 0x20].foldl
    (fun m ofs => write_mem m (cred_addr + ofs) 0x00000000) mem
  if effective then
    write_mem (write_mem m (cred_addr + 0x14) 0x00000000) (cred_addr + 0x18)
      0x00000000
  else m

/-- Translation of the `set_root_ids` call in `adbd_mode` (line 335):
`gdbsc.set_root_ids(adbd_cred_ptr, effective=not options.stealth)`. -/
def adbd_mode_set_root_ids (mem : Nat → Nat) (adbd_cred_ptr : Nat)
    (stealth : Bool) : Nat → Nat :=
  set_root_ids mem adbd_cred_ptr (!stealth)

/-- A Python value as returned by `read_mem`: either an `int` or `None`
(the implicit return value of a Python function body that falls through
without `return`). -/
inductive PyVal where
  | vNone
  | vInt : Nat → PyVal
  deriving DecidableEq

/-- Translation of the `rec == 1` activation of `read_mem` (lines 124–144):
one transport response is consumed (`some v` = a response that parses to word
`v`, `none` = a malformed response / timeout).  A malformed response on the
retry executes `self.stop()` and raises; the second component records whether
`stop()` was called. -/
def read_mem_retry (r : Option Nat) : Except EmurootError PyVal × Bool :=
  match r with
  | some v => (Except.ok (PyVal.vInt v), false)
  | none => (Except.error EmurootError.DebugChannelUnreliable, true)

/-- Translation of `GDB_stub_controller.read_mem` (lines 124–144), entered
with `rec = 0`, unfolded over the at-most-two transport responses `r1` (first
attempt) and `r2` (retry).  If `r1` parses, its word is returned.  Otherwise
the source recurses with `rec = 1` but does not `return` the recursive result,
so a successful retry makes the outer call return Python `None`
(`PyVal.vNone`); an exception from the retry propagates.  The `Bool` component
records whether `self.stop()` was called. -/
def read_mem (r1 r2 : Option Nat) : Except EmurootError PyVal × Bool :=
  match r1 with
  | some v => (Except.ok (PyVal.vInt v), false)
  | none =>
    match read_mem_retry r2 with
    | (Except.ok _, st) => (Except.ok PyVal.vNone, st)
    | (Except.error e, st) => (Except.error e, st)

/-- Outcome of `get_process_task_struct`, instrumented: the returned value or
raised error, the list of addresses at which a word read was issued (in
order), and whether `self.stop()` was called anywhere in the operation. -/
structure LocateResult where
  result : Except EmurootError Nat
  reads : List Nat
  stopped : Bool
  deriving DecidableEq

/-- Translation of the validation loop of `get_process_task_struct`
(lines 215–222): for each alignment-surviving candidate `c`, the two words at
`c - 8` and `c - 4` are read; if they are equal the function returns
`c - offset_to_comm`, otherwise it moves on; when the candidates are exhausted
it raises `Exception("Could not find process task struct")` — with no
`self.stop()` call on that path.  Word reads are modelled over a reliable
memory `mem : Nat → Nat` (transport faults are modelled in `read_mem`). -/
def scan_candidates (mem : Nat → Nat) (offset_to_comm : Nat) :
    List Nat → LocateResult
  | [] => ⟨Except.error EmurootError.StructNotFound, [], false⟩
  | c :: rest =>
    let magic_cred_ptr1 := mem (c - 8)
    let magic_cred_ptr2 := mem (c - 4)
    if magic_cred_ptr1 = magic_cred_ptr2 then
      ⟨Except.ok (c - offset_to_comm), [c - 8, c - 4], false⟩
    else
      let r := scan_candidates mem offset_to_comm rest
      ⟨r.result, (c - 8) :: (c - 4) :: r.reads, r.stopped⟩

/-- Translation of `GDB_stub_controller.get_process_task_struct`
(lines 203–222): `addresses` is the sequence the byte-pattern search
(`self.find(process)`) returned, in search order; the candidates are those
with `addr % 16 == offset_to_comm % 16`, kept in order, and then scanned by
`scan_candidates`. -/
def get_process_task_struct (mem : Nat → Nat) (offset_to_comm : Nat)
    (addresses : List Nat) : LocateResult :=
  scan_candidates mem offset_to_comm
    (addresses.filter (fun addr => addr % 16 == offset_to_comm % 16))

/-- Modelled from the spec (§4.2 `findControlStruct` postcondition): the first
search result satisfying both the alignment check and the duplicate-pointer
heuristic determines the result `A - commOffset`; otherwise `StructNotFound`. -/
def spec_findControlStruct (mem : Nat → Nat) (offset_to_comm : Nat)
    (addresses : List Nat) : Except EmurootError Nat :=
  match addresses.find? (fun a =>
      (a % 16 == offset_to_comm % 16) && (mem (a - 8) == mem (a - 4))) with
  | some A => Except.ok (A - offset_to_comm)
  | none => Except.error EmurootError.StructNotFound

/-- Translation of `GDB_stub_controller.get_adbd_cred_struct` (lines 224–237),
as a step-indexed function: the source is `while True:` — read the parent
pointer at `cur + offset_to_comm - offset_to_parent`, read the parent's name
string at `parent + offset_to_comm` (the transport's quoting included), return
the word at `parent + offset_to_comm - 4` if the name is `"adbd"` (quoted),
else continue from the parent.  `fuel` counts loop iterations; the source has
no bound, so `none` means the loop has not produced a result within `fuel`
iterations. -/
def get_adbd_cred_struct (mem : Nat → Nat) (names : Nat → String)
    (offset_to_comm offset_to_parent : Nat) : Nat → Nat → Option Nat
  | _, 0 => none
  | cur, fuel + 1 =>
    let parent_struct_addr := mem (cur + offset_to_comm - offset_to_parent)
    let parent_struct_name := names (parent_struct_addr + offset_to_comm)
    if parent_struct_name = "\"adbd\"" then
      some (mem (parent_struct_addr + offset_to_comm - 4))
    else
      get_adbd_cred_struct mem names offset_to_comm offset_to_parent
        parent_struct_addr fuel

/-- Translation of the credential-pointer derivation of `single_mode`
(line 261): `magic_cred_ptr = read_mem(magic + offset_to_comm - 8)` where
`magic` is the located task-struct base. -/
def single_mode_cred_ptr (mem : Nat → Nat) (magic offset_to_comm : Nat) :
    Nat :=
  mem (magic + offset_to_comm - 8)

/-- Translation of the credential-pointer derivation of
`get_adbd_cred_struct` (line 234): `read_mem(parent_struct_addr +
offset_to_comm - 4)`. -/
def adbd_walk_cred_ptr (mem : Nat → Nat) (parent_struct_addr offset_to_comm :
    Nat) : Nat :=
  mem (parent_struct_addr + offset_to_comm - 4)

/-- A memory in which every word reads as the same value, so every candidate
passes the duplicate-pointer heuristic. -/
def constMem : Nat → Nat := fun _ => 0x12345678

/-- A memory agreeing with `constMem` on the two words preceding the aligned
candidate `0xC0000288` and differing everywhere else. -/
def constMem2 : Nat → Nat :=
  fun a => if a = 0xC0000280 ∨ a = 0xC0000284 then 0x12345678 else 0

/-- A two-node cyclic parent chain for the ancestry walk, with
`offset_to_comm = 0x288` and `offset_to_parent = 0xe0`: the parent pointer of
the structure at `0x1000` (read at `0x11a8`) is `0x2000`, and the parent
pointer of the structure at `0x2000` (read at `0x21a8`) is `0x1000`. -/
def cycleMem : Nat → Nat :=
  fun a => if a = 0x11a8 then 0x2000 else if a = 0x21a8 then 0x1000 else 0

/-- Name strings for the cyclic chain: the structure at `0x1000` is named
`"start"` and the one at `0x2000` is named `"mid"` (in the transport's
quoting); the name `"adbd"` appears nowhere. -/
def cycleNames : Nat → String :=
  fun a => if a = 0x1288 then "\"start\"" else
           if a = 0x2288 then "\"mid\"" else ""

/-- A memory in which every word reads as its own address, so no candidate
passes the duplicate-pointer heuristic. -/
def idMem : Nat → Nat := fun a => a

/-- Pointwise characterization of `set_full_capabilities`: the six capability
words get `0xffffffff`, every other address keeps its old value. -/
theorem set_full_capabilities_apply (mem : Nat → Nat) (cred_addr a : Nat) :
    set_full_capabilities mem cred_addr a =
      if a = cred_addr + 0x30 ∨ a = cred_addr + 0x34 ∨ a = cred_addr + 0x38 ∨
         a = cred_addr + 0x3c ∨ a = cred_addr + 0x40 ∨ a = cred_addr + 0x44
      then 0xffffffff else mem a := by
  simp only [set_full_capabilities, List.foldl, write_mem]
  split_ifs <;> first | rfl | omega

/-- Pointwise characterization of `set_root_ids` with `effective = false`:
exactly the six identity words get `0`, everything else is untouched. -/
theorem set_root_ids_false_apply (mem : Nat → Nat) (cred_addr a : Nat) :
    set_root_ids mem cred_addr false a =
      if a = cred_addr + 0x04 ∨ a = cred_addr + 0x08 ∨ a = cred_addr + 0x0c ∨
         a = cred_addr + 0x10 ∨ a = cred_addr + 0x1c ∨ a = cred_addr + 0x20
      then 0 else mem a := by
  simp only [set_root_ids, List.foldl, write_mem, Bool.false_eq_true, if_false]
  split_ifs <;> first | rfl | omega

/-- Pointwise characterization of `set_root_ids` with `effective = true`: the
six identity words plus euid (`0x14`) and egid (`0x18`) get `0`. -/
theorem set_root_ids_true_apply (mem : Nat → Nat) (cred_addr a : Nat) :
    set_root_ids mem cred_addr true a =
      if a = cred_addr + 0x04 ∨ a = cred_addr + 0x08 ∨ a = cred_addr + 0x0c ∨
         a = cred_addr + 0x10 ∨ a = cred_addr + 0x1c ∨ a = cred_addr + 0x20 ∨
         a = cred_addr + 0x14 ∨ a = cred_addr + 0x18
      then 0 else mem a := by
  simp only [set_root_ids, List.foldl, write_mem, if_true]
  split_ifs <;> first | rfl | omega

/-- The locate operation never calls `self.stop()`: no code path of
`scan_candidates` sets the `stopped` flag. -/
theorem scan_candidates_stopped (mem : Nat → Nat) (k : Nat) (l : List Nat) :
    (scan_candidates mem k l).stopped = false := by
  induction l with
  | nil => rfl
  | cons c rest ih =>
    simp only [scan_candidates]
    split_ifs with h
    · rfl
    · exact ih

/-- Scanning the alignment-filtered candidates is the spec's "first search
result satisfying both heuristics" rule. -/
theorem scan_filter_find (mem : Nat → Nat) (k : Nat) (l : List Nat) :
    (scan_candidates mem k (l.filter (fun a => a % 16 == k % 16))).result =
      spec_findControlStruct mem k l := by
  induction l with
  | nil => rfl
  | cons a rest ih =>
    simp only [spec_findControlStruct, List.filter_cons, List.find?_cons]
    by_cases h1 : (a % 16 == k % 16) = true
    · by_cases h2 : mem (a - 8) = mem (a - 4)
      · simp [scan_candidates, h1, h2]
      · have h2' : (mem (a - 8) == mem (a - 4)) = false := by
          simpa using h2
        simp only [h1, if_true, Bool.true_and, h2', scan_candidates, if_neg h2]
        simpa [spec_findControlStruct] using ih
    · have h1' : (a % 16 == k % 16) = false := by
        simpa using h1
      simp only [h1', if_false, Bool.false_and]
      simpa [spec_findControlStruct] using ih

/-- Every read the candidate scan issues is at one of the two words preceding
some scanned candidate. -/
theorem scan_candidates_reads (mem : Nat → Nat) (k : Nat) (l : List Nat)
    (r : Nat) (hr : r ∈ (scan_candidates mem k l).reads) :
    ∃ c ∈ l, r = c - 8 ∨ r = c - 4 := by
  induction l with
  | nil => simp [scan_candidates] at hr
  | cons c rest ih =>
    simp only [scan_candidates] at hr
    split_ifs at hr with h
    · simp only [List.mem_cons, List.mem_singleton, List.not_mem_nil,
        or_false] at hr
      exact ⟨c, List.mem_cons_self c rest, hr⟩
    · simp only [List.mem_cons] at hr
      rcases hr with hr | hr | hr
      · exact ⟨c, List.mem_cons_self c rest, Or.inl hr⟩
      · exact ⟨c, List.mem_cons_self c rest, Or.inr hr⟩
      · obtain ⟨c', hc', hor⟩ := ih hr
        exact ⟨c', List.mem_cons_of_mem c hc', hor⟩

/-- The candidate scan depends only on the words preceding the scanned
candidates: two memories agreeing there produce identical outcomes. -/
theorem scan_candidates_congr (mem mem' : Nat → Nat) (k : Nat) (l : List Nat)
    (hagree : ∀ c ∈ l, mem (c - 8) = mem' (c - 8) ∧ mem (c - 4) = mem' (c - 4)) :
    scan_candidates mem k l = scan_candidates mem' k l := by
  induction l with
  | nil => rfl
  | cons c rest ih =>
    obtain ⟨e8, e4⟩ := hagree c (List.mem_cons_self c rest)
    have hrest := ih (fun c' hc' => hagree c' (List.mem_cons_of_mem c hc'))
    simp only [scan_candidates, e8, e4, hrest]

/-- A successful scan exits at a candidate whose preceding words are equal,
and the returned base is that candidate minus `offset_to_comm`. -/
theorem scan_candidates_ok (mem : Nat → Nat) (k : Nat) (l : List Nat)
    (base : Nat) (hok : (scan_candidates mem k l).result = Except.ok base) :
    ∃ c ∈ l, mem (c - 8) = mem (c - 4) ∧ base = c - k := by
  induction l with
  | nil => simp [scan_candidates] at hok
  | cons c rest ih =>
    simp only [scan_candidates] at hok
    split_ifs at hok with h
    · simp only [Except.ok.injEq] at hok
      exact ⟨c, List.mem_cons_self c rest, h, hok.symm⟩
    · obtain ⟨c', hc', heq, hbase⟩ := ih hok
      exact ⟨c', List.mem_cons_of_mem c hc', heq, hbase⟩

/-!
Claim theorems.
-/

/-- Claim C1, counterexample: the claim reads `v <= 3.10` as the ordering of
two-part `major.minor` versions, under which `3.4` precedes `3.10` and should
resolve to the `commOffset 0x288` profile; but `kernel_version` compares the
version as the decimal number `float("3.4") = 3.4 > 3.18` and raises
`UnsupportedVersion` for it. -/
theorem C1_version_bracket_counterexample :
    spec_version_le (3, 4) (3, 10) = true ∧
    kernel_version 3 [4] = Except.error EmurootError.UnsupportedVersion := by
  constructor
  · decide
  · simp only [kernel_version, floatOfVersion, digitsToNat, List.foldl,
      List.length]
    norm_num

/-- Claim C1, amended: brackets are decided on the decimal value of the
version string (`float("major.minor")`), not on the major.minor version
order: a value at most `3.10` resolves to the profile with `commOffset 0x288`,
`parentOffset 0xE0`, enforcement-flag addresses `{0xC0A77548, 0xC0A7754C,
0xC0A77550}` and liveness command `"ps"`; a value in `(3.10, 3.18]` resolves
to the distinct profile with `commOffset 0x444`, `parentOffset 0xE0`,
addresses `{0xC0C4F288, 0xC0C4F28C, 0xC0C4F280}` and command `"ps -A"`; any
larger value fails with `UnsupportedVersion`. -/
theorem C1_version_bracket_amended (major : Nat) (ds : List Nat) :
    (floatOfVersion major ds ≤ 3.10 →
      kernel_version major ds = Except.ok spec_profile_A) ∧
    (3.10 < floatOfVersion major ds → floatOfVersion major ds ≤ 3.18 →
      kernel_version major ds = Except.ok spec_profile_B) ∧
    (3.18 < floatOfVersion major ds →
      kernel_version major ds = Except.error EmurootError.UnsupportedVersion) ∧
    spec_profile_A ≠ spec_profile_B := by
  refine ⟨?_, ?_, ?_, by decide⟩
  · intro h
    simp only [kernel_version]
    rw [if_pos h]
    rfl
  · intro h1 h2
    simp only [kernel_version]
    rw [if_neg (not_le.mpr h1), if_pos ⟨h1, h2⟩]
    rfl
  · intro h
    have hgt : (3.10 : ℚ) < floatOfVersion major ds :=
      lt_trans (by norm_num) h
    have h1 : ¬ (floatOfVersion major ds ≤ 3.10) := not_le.mpr hgt
    have h2 : ¬ ((3.10 : ℚ) < floatOfVersion major ds ∧
        floatOfVersion major ds ≤ 3.18) := by
      rintro ⟨-, hle⟩
      exact absurd h (not_lt.mpr hle)
    simp only [kernel_version]
    rw [if_neg h1, if_neg h2]

/-- Claim C1, witness: concrete versions `3.10`, `3.18` and `3.4` land in the
three cases of the amended bracket rule. -/
theorem C1_version_bracket_witness :
    kernel_version 3 [1, 0] = Except.ok spec_profile_A ∧
    kernel_version 3 [1, 8] = Except.ok spec_profile_B ∧
    kernel_version 3 [4] = Except.error EmurootError.UnsupportedVersion ∧
    spec_profile_A ≠ spec_profile_B :=
  ⟨(C1_version_bracket_amended 3 [1, 0]).1
      (by norm_num [floatOfVersion, digitsToNat, List.foldl, List.length]),
   (C1_version_bracket_amended 3 [1, 8]).2.1
      (by norm_num [floatOfVersion, digitsToNat, List.foldl, List.length])
      (by norm_num [floatOfVersion, digitsToNat, List.foldl, List.length]),
   (C1_version_bracket_amended 3 [4]).2.2.1
      (by norm_num [floatOfVersion, digitsToNat, List.foldl, List.length]),
   (C1_version_bracket_amended 3 [4]).2.2.2⟩

/-- Claim C2, counterexample: both concrete premises of the section-8
scenario fail on the code.  A target reporting kernel version `"3.4"` does not
select profile A — `kernel_version` raises `UnsupportedVersion` — and the
claimed name address `0x10010010` cannot satisfy the alignment heuristic for
`commOffset 0x288` (`0x10010010 mod 16 = 0 ≠ 8 = 0x288 mod 16`), so even in a
memory where its preceding words are equal the locate operation raises
`StructNotFound` instead of returning `0x1000FD88`. -/
theorem C2_end_to_end_counterexample :
    kernel_version 3 [4] = Except.error EmurootError.UnsupportedVersion ∧
    0x10010010 % 16 ≠ 0x288 % 16 ∧
    constMem (0x10010010 - 8) = constMem (0x10010010 - 4) ∧
    (get_process_task_struct constMem 0x288 [0x10010010]).result =
      Except.error EmurootError.StructNotFound := by
  refine ⟨?_, by decide, rfl, by decide⟩
  simp only [kernel_version, floatOfVersion, digitsToNat, List.foldl,
    List.length]
  norm_num

/-- Claim C2, amended: when the target reports kernel version `"3.10"`,
profile A (`commOffset 0x288`) is selected, and for a memory map whose name
search hits address `0x10010008` — which satisfies the alignment heuristic for
`commOffset 0x288` — with equal words at the two preceding addresses,
`get_process_task_struct` returns `0x1000FD80 = 0x10010008 - 0x288`. -/
theorem C2_end_to_end_amended :
    kernel_version 3 [1, 0] = Except.ok spec_profile_A ∧
    spec_profile_A.offset_to_comm = 0x288 ∧
    0x10010008 % 16 = 0x288 % 16 ∧
    constMem (0x10010008 - 8) = constMem (0x10010008 - 4) ∧
    (get_process_task_struct constMem 0x288 [0x10010008]).result =
      Except.ok 0x1000FD80 := by
  refine ⟨?_, rfl, by decide, rfl, by decide⟩
  simp only [kernel_version, floatOfVersion, digitsToNat, List.foldl,
    List.length]
  norm_num
  rfl

/-- Claim C3: single-retry read semantics.  The half of the claim about two
consecutive malformed responses holds: `read_mem` calls `self.stop()` and
raises `DebugChannelUnreliable` (third conjunct).  But the half about a
malformed response followed by a well-formed retry is wrong on the code: the
source retries via `self.read_mem(addr, rec=1)` without `return`, so the
retried word (`0x1234` here) is discarded and the call returns Python `None`
(second conjunct) instead of the well-formed value — compare the first
conjunct, a first-attempt success returning the parsed word. -/
theorem C3_read_retry_bug :
    read_mem (Option.some 0x1234) Option.none =
      (Except.ok (PyVal.vInt 0x1234), false) ∧
    read_mem Option.none (Option.some 0x1234) =
      (Except.ok PyVal.vNone, false) ∧
    read_mem Option.none Option.none =
      (Except.error EmurootError.DebugChannelUnreliable, true) :=
  ⟨rfl, rfl, rfl⟩

set_option maxRecDepth 40000 in
/-- Claim C4, counterexample: on the cyclic parent chain
`0x1000 -> 0x2000 -> 0x1000` whose structure names are `"start"` and `"mid"`
(never `"adbd"`), `get_adbd_cred_struct` has produced neither a result nor any
`AncestorNotFound`-style failure after `1000` parent-pointer steps — far
beyond any plausible fixed maximum-ancestor-depth bound — because the source
loop is `while True:` with no depth bound at all. -/
theorem C4_cycle_counterexample :
    cycleMem (0x1000 + 0x288 - 0xe0) = 0x2000 ∧
    cycleMem (0x2000 + 0x288 - 0xe0) = 0x1000 ∧
    cycleNames (0x1000 + 0x288) ≠ "\"adbd\"" ∧
    cycleNames (0x2000 + 0x288) ≠ "\"adbd\"" ∧
    get_adbd_cred_struct cycleMem cycleNames 0x288 0xe0 0x1000 1000 =
      none := by
  refine ⟨rfl, rfl, by decide, by decide, ?_⟩
  decide

/-- Claim C4, amended: the ancestry walk of `get_adbd_cred_struct` is
unbounded — the source loop is `while True:` with no maximum-ancestor-depth
constant and no `AncestorNotFound` failure.  Consequently, on any parent chain
that is closed under the parent step and never reaches a structure named
`"adbd"` (in particular on the cycle `start -> mid -> start`), the walk never
terminates: for every iteration count it has produced no result. -/
theorem C4_unbounded_walk_amended (mem : Nat → Nat) (names : Nat → String)
    (offset_to_comm offset_to_parent : Nat) (P : Nat → Prop)
    (hstep : ∀ cur, P cur →
      P (mem (cur + offset_to_comm - offset_to_parent)))
    (hname : ∀ cur, P cur →
      names (mem (cur + offset_to_comm - offset_to_parent) + offset_to_comm) ≠
        "\"adbd\"")
    (fuel cur : Nat) (hcur : P cur) :
    get_adbd_cred_struct mem names offset_to_comm offset_to_parent cur fuel =
      none := by
  induction fuel generalizing cur with
  | zero => rfl
  | succ n ih =>
    simp only [get_adbd_cred_struct]
    rw [if_neg (hname cur hcur)]
    exact ih _ (hstep cur hcur)

/-- Claim C4, witness: the amended theorem applied to the concrete two-node
cycle, at fifty iterations. -/
theorem C4_unbounded_walk_witness :
    get_adbd_cred_struct cycleMem cycleNames 0x288 0xe0 0x1000 50 = none :=
  C4_unbounded_walk_amended cycleMem cycleNames 0x288 0xe0
    (fun c => c = 0x1000 ∨ c = 0x2000)
    (by rintro cur (rfl | rfl) <;> decide)
    (by rintro cur (rfl | rfl) <;> decide)
    50 0x1000 (Or.inl rfl)

/-- Claim C5: StructLocator postcondition.  For every search-result sequence,
`get_process_task_struct` returns `A - commOffset` for the first address `A`
(in search order) that passes both the alignment check
`A mod 16 = commOffset mod 16` and the duplicate-pointer heuristic
`mem (A-8) = mem (A-4)`, and raises `StructNotFound` when no address passes
both — i.e. it agrees with the spec-side `spec_findControlStruct`. -/
theorem C5_locator_postcondition (mem : Nat → Nat) (offset_to_comm : Nat)
    (addresses : List Nat) :
    (get_process_task_struct mem offset_to_comm addresses).result =
      spec_findControlStruct mem offset_to_comm addresses :=
  scan_filter_find mem offset_to_comm addresses

/-- Claim C6, counterexample: a locate operation in which the only search hit
is an aligned candidate that fails the duplicate-pointer heuristic raises
`StructNotFound` with `stopped = false` — `get_process_task_struct` surfaces
the error without ever calling `self.stop()`, so the debug session is not
released on that failure path. -/
theorem C6_session_release_counterexample :
    (get_process_task_struct idMem 0x288 [0xC0000288]).result =
      Except.error EmurootError.StructNotFound ∧
    (get_process_task_struct idMem 0x288 [0xC0000288]).stopped = false := by
  decide

/-- Claim C6, amended: the session is released on the hard transport-failure
path but not on the locate failure path.  `get_process_task_struct` never
calls `self.stop()` — in particular not when it raises `StructNotFound` —
while a doubly-malformed `read_mem` does call `self.stop()` before raising
`DebugChannelUnreliable`. -/
theorem C6_session_release_amended (mem : Nat → Nat) (offset_to_comm : Nat)
    (addresses : List Nat) :
    (get_process_task_struct mem offset_to_comm addresses).stopped = false ∧
    (read_mem Option.none Option.none).2 = true ∧
    (read_mem Option.none Option.none).1 =
      Except.error EmurootError.DebugChannelUnreliable :=
  ⟨scan_candidates_stopped mem offset_to_comm _, rfl, rfl⟩

/-- Claim C7: `set_full_capabilities` writes `0xFFFFFFFF` to exactly the six
offsets `{0x30, 0x34, 0x38, 0x3C, 0x40, 0x44}` from `cred_addr` and leaves
every other address unchanged, and applying it twice yields the same memory
as applying it once (idempotence), pointwise at every address. -/
theorem C7_full_capabilities (mem : Nat → Nat) (cred_addr a : Nat) :
    set_full_capabilities mem cred_addr a =
      (if a = cred_addr + 0x30 ∨ a = cred_addr + 0x34 ∨ a = cred_addr + 0x38 ∨
          a = cred_addr + 0x3c ∨ a = cred_addr + 0x40 ∨ a = cred_addr + 0x44
       then 0xffffffff else mem a) ∧
    set_full_capabilities (set_full_capabilities mem cred_addr) cred_addr a =
      set_full_capabilities mem cred_addr a := by
  refine ⟨set_full_capabilities_apply mem cred_addr a, ?_⟩
  rw [set_full_capabilities_apply, set_full_capabilities_apply]
  split_ifs <;> rfl

/-- Claim C8: frame condition of `set_root_ids` on the effective-ID flag.
With `effective = false` exactly the six identity offsets `{0x04, 0x08, 0x0C,
0x10, 0x1C, 0x20}` are zeroed and the euid/egid words at `0x14`/`0x18` keep
their old values; with `effective = true` those two are zeroed as well.  In
`adbd_mode`, the stealth flag selects `effective = not stealth`, so stealth
mode leaves the daemon's effective IDs untouched. -/
theorem C8_root_ids_frame (mem : Nat → Nat) (cred_addr a : Nat) :
    set_root_ids mem cred_addr false a =
      (if a = cred_addr + 0x04 ∨ a = cred_addr + 0x08 ∨ a = cred_addr + 0x0c ∨
          a = cred_addr + 0x10 ∨ a = cred_addr + 0x1c ∨ a = cred_addr + 0x20
       then 0 else mem a) ∧
    set_root_ids mem cred_addr false (cred_addr + 0x14) =
      mem (cred_addr + 0x14) ∧
    set_root_ids mem cred_addr false (cred_addr + 0x18) =
      mem (cred_addr + 0x18) ∧
    set_root_ids mem cred_addr true a =
      (if a = cred_addr + 0x04 ∨ a = cred_addr + 0x08 ∨ a = cred_addr + 0x0c ∨
          a = cred_addr + 0x10 ∨ a = cred_addr + 0x1c ∨ a = cred_addr + 0x20 ∨
          a = cred_addr + 0x14 ∨ a = cred_addr + 0x18
       then 0 else mem a) ∧
    adbd_mode_set_root_ids mem cred_addr true a =
      set_root_ids mem cred_addr false a := by
  refine ⟨set_root_ids_false_apply mem cred_addr a, ?_, ?_,
    set_root_ids_true_apply mem cred_addr a, rfl⟩
  · rw [set_root_ids_false_apply, if_neg (by omega)]
  · rw [set_root_ids_false_apply, if_neg (by omega)]

/-- Claim C9: alignment pre-filter frame condition.  Every word read the
locate operation issues is at `c - 8` or `c - 4` for some search hit `c` that
passes the alignment check, so the preceding words of an alignment-failing
hit are never read on its behalf; and the whole outcome (result, reads,
session state) is unchanged by arbitrary modification of memory outside the
preceding words of aligned hits. -/
theorem C9_alignment_prefilter (mem mem2 : Nat → Nat) (offset_to_comm : Nat)
    (addresses : List Nat) (r : Nat)
    (hagree : ∀ c ∈ addresses, (c % 16 == offset_to_comm % 16) = true →
      mem (c - 8) = mem2 (c - 8) ∧ mem (c - 4) = mem2 (c - 4))
    (hr : r ∈ (get_process_task_struct mem offset_to_comm addresses).reads) :
    (∃ c ∈ addresses, (c % 16 == offset_to_comm % 16) = true ∧
      (r = c - 8 ∨ r = c - 4)) ∧
    get_process_task_struct mem offset_to_comm addresses =
      get_process_task_struct mem2 offset_to_comm addresses := by
  constructor
  · obtain ⟨c, hc, hor⟩ := scan_candidates_reads mem offset_to_comm _ r hr
    rw [List.mem_filter] at hc
    exact ⟨c, hc.1, hc.2, hor⟩
  · unfold get_process_task_struct
    apply scan_candidates_congr
    intro c hc
    rw [List.mem_filter] at hc
    exact hagree c hc.1 hc.2

/-- Claim C9, witness: the single aligned hit `0xC0000288`; its preceding
word `0xC0000280` is read, and replacing memory everywhere except at
`0xC0000280`/`0xC0000284` (as `constMem2` does) leaves the outcome
untouched. -/
theorem C9_alignment_prefilter_witness :
    (∃ c ∈ ([0xC0000288] : List Nat), (c % 16 == 0x288 % 16) = true ∧
      (0xC0000280 = c - 8 ∨ 0xC0000280 = c - 4)) ∧
    get_process_task_struct constMem 0x288 [0xC0000288] =
      get_process_task_struct constMem2 0x288 [0xC0000288] :=
  C9_alignment_prefilter constMem constMem2 0x288 [0xC0000288] 0xC0000280
    (by decide) (by decide)

/-- Claim C10: for any structure base validated by the locate operation, the
credential pointer `single_mode` patches (read at `base + commOffset - 8`,
line 261) and the credential pointer the ancestry walker would report for the
same structure (read at `base + commOffset - 4`, line 234) are the same
address, because validation required the words at those two locations to be
equal. -/
theorem C10_cred_ptr_agreement (mem : Nat → Nat) (offset_to_comm : Nat)
    (addresses : List Nat) (base : Nat)
    (hge : ∀ c ∈ addresses, offset_to_comm ≤ c)
    (hok : (get_process_task_struct mem offset_to_comm addresses).result =
      Except.ok base) :
    single_mode_cred_ptr mem base offset_to_comm =
      adbd_walk_cred_ptr mem base offset_to_comm := by
  obtain ⟨c, hc, heq, hbase⟩ :=
    scan_candidates_ok mem offset_to_comm _ base hok
  rw [List.mem_filter] at hc
  have hle : offset_to_comm ≤ c := hge c hc.1
  have hc' : base + offset_to_comm = c := by
    rw [hbase]
    omega
  unfold single_mode_cred_ptr adbd_walk_cred_ptr
  rw [hc', heq]

/-- Claim C10, witness: the validated base `0xC0000000` (from candidate
`0xC0000288` with `commOffset 0x288`) yields the same credential pointer by
either derivation. -/
theorem C10_cred_ptr_agreement_witness :
    single_mode_cred_ptr constMem 0xC0000000 0x288 =
      adbd_walk_cred_ptr constMem 0xC0000000 0x288 :=
  C10_cred_ptr_agreement constMem 0x288 [0xC0000288] 0xC0000000
    (by decide) (by decide)

end Emuroot
